import Mathlib

/-!
Verification of the draft-metadata lifecycle core of the dataplexutils
metadata wizard (`src/package/dataplexutils/metadata/`).

The Python source is shallowly embedded: pure functions become Lean
functions over `String`/`List`; methods that talk to external stores
(BigQuery, the Dataplex catalog, GCS) become explicit state-passing
functions over small record types, with the success of each external
write modelled by a `Bool` flag; Python exceptions become an explicit
`Except` channel.  A function whose Python body is wrapped in a
`try/except` that returns instead of re-raising is embedded with every
path producing `.ok`.

The package loads its fixed strings from a `constants.toml` file that is
referenced by every module but is not part of the source tree; those
constants are modelled from the specification (and from the literal
values appearing in the repository's tests) and are marked as such.
-/

namespace DataplexUtils

/-- Python exception values that the embedded code can raise. -/
inductive PyErr where
  | valueError (msg : String)
  | attributeError (msg : String)
  | keyError (key : String)
  deriving DecidableEq, Repr

/-! ### Python string primitives -/

/-- Embedding of Python `str.lower()` restricted to its ASCII behaviour
(the merge-policy strings it is applied to are ASCII). -/
def pyLower (s : String) : String :=
  ⟨s.data.map Char.toLower⟩

/-- Index of the first occurrence of `pat` in `hay`, over code points:
embedding of Python `str.index`, which raises `ValueError` exactly when
the result here is `none`. -/
def findSubstrIdx (hay pat : List Char) : Option Nat :=
  if pat.isPrefixOf hay then some 0
  else
    match hay with
    | [] => none
    | _ :: t => (findSubstrIdx t pat).map (· + 1)

/-- Python `haystack.index(needle)` as an `Option`. -/
def pyIndex (hay pat : String) : Option Nat :=
  findSubstrIdx hay.data pat.data

/-- Python slice `s[:n]` (by code points, as in Python). -/
def strTake (s : String) (n : Nat) : String :=
  ⟨s.data.take n⟩

/-! ### Constants

`constants.toml` is absent from the source tree, so these values are
modelled rather than transcribed. -/

/-- Modelled from the spec: `constants["OUTPUT_CLAUSES"]["AI_WARNING"]`,
the AI-provenance watermark, missing with `constants.toml`; the value
`===AI generated description===` is the one used by the repository's own
integration tests (`tests/integration_tests.py`). -/
def AI_WARNING : String := "===AI generated description==="

/-- Modelled from the spec: `constants["DESCRIPTION_HANDLING"]["APPEND"]`,
missing with `constants.toml`.  `combine_description` compares it with a
lower-cased policy argument and the repository's tests pass the policy as
`'append'`, so the stored value is lower case. -/
def DH_APPEND : String := "append"

/-- Modelled from the spec: `constants["DESCRIPTION_HANDLING"]["PREPEND"]`,
missing with `constants.toml`. -/
def DH_PREPEND : String := "prepend"

/-- Modelled from the spec: `constants["DESCRIPTION_HANDLING"]["REPLACE"]`,
missing with `constants.toml`. -/
def DH_REPLACE : String := "replace"

/-! ### Description Merge Engine (`utils.py`, `MetadataUtils.combine_description`) -/

/-- The local variable `description_handling_lower` of
`combine_description`: `description_handling.lower() if
description_handling else ""`. -/
def handlingLower (handling : String) : String :=
  if handling = "" then "" else pyLower handling

/-- Embedding of `MetadataUtils.combine_description`.  Every path of the
Python body is a `return` (the function raises nothing: the `try` around
`old_description.index` catches the only possible exception), so every
branch is `.ok`; the explicit `Except` channel records that no
configuration error is ever signalled. -/
def combine_description (old_description new_description description_handling : String) :
    Except PyErr String :=
  if new_description = "" then .ok old_description
  else if handlingLower description_handling = DH_APPEND then
    (if old_description ≠ "" then
      match pyIndex old_description AI_WARNING with
      | some index => .ok (strTake old_description index ++ new_description)
      | none => .ok (old_description ++ new_description)
    else .ok new_description)
  else if handlingLower description_handling = DH_PREPEND then
    .ok (new_description ++ old_description)
  else if handlingLower description_handling = DH_REPLACE then
    .ok new_description
  else .ok old_description

/-- The merged string produced by `combine_description`; the `.error`
branch is unreachable (the source never raises) and defaults to the old
text only to make this total. -/
def combineD (old_description new_description description_handling : String) : String :=
  match combine_description old_description new_description description_handling with
  | .ok r => r
  | .error _ => old_description

theorem combine_description_eq_ok (o n h : String) :
    combine_description o n h = .ok (combineD o n h) := by
  unfold combineD
  cases hc : combine_description o n h with
  | ok r => rfl
  | error e =>
    exfalso
    unfold combine_description at hc
    (repeat' split at hc) <;> exact Except.noConfusion hc

/-! ### Lemmas about `pyLower` and `handlingLower` -/

theorem char_toNat_ofNat_valid (n : Nat) (h : n < 0xd800) : (Char.ofNat n).toNat = n := by
  rw [Char.ofNat, dif_pos (Or.inl h)]
  rfl

theorem char_toLower_idem (c : Char) : c.toLower.toLower = c.toLower := by
  by_cases h : c.toNat ≥ 65 ∧ c.toNat ≤ 90
  · have h1 : c.toLower = Char.ofNat (c.toNat + 32) := by
      unfold Char.toLower
      exact if_pos h
    have h2 : (Char.ofNat (c.toNat + 32)).toNat = c.toNat + 32 :=
      char_toNat_ofNat_valid _ (by omega)
    rw [h1]
    unfold Char.toLower
    rw [if_neg]
    rw [h2]
    omega
  · have h1 : c.toLower = c := by
      unfold Char.toLower
      exact if_neg h
    rw [h1, h1]

theorem pyLower_idem (s : String) : pyLower (pyLower s) = pyLower s := by
  unfold pyLower
  simp only [List.map_map]
  congr 1
  apply List.map_congr_left
  intro c _
  exact char_toLower_idem c

theorem pyLower_eq_empty_iff (s : String) : pyLower s = "" ↔ s = "" := by
  constructor
  · intro h
    have hd : s.data.map Char.toLower = [] := congrArg String.data h
    have hnil : s.data = [] := List.map_eq_nil_iff.mp hd
    cases s
    simp only at hnil
    rw [hnil]
  · intro h
    rw [h]
    rfl

theorem handlingLower_pyLower (p : String) :
    handlingLower (pyLower p) = handlingLower p := by
  by_cases hp : p = ""
  · rw [hp]
    rfl
  · have hlp : pyLower p ≠ "" := fun h => hp ((pyLower_eq_empty_iff p).mp h)
    unfold handlingLower
    rw [if_neg hlp, if_neg hp, pyLower_idem]

deriving instance DecidableEq for Except

/-! ### Claims about the Description Merge Engine -/

/-- Claim C1, counterexample.  The claim states that for `oldText =
humanPrefix ++ AI_WARNING ++ oldAiText` and non-empty `newText`,
`combine(oldText, newText, APPEND)` returns `humanPrefix ++ AI_WARNING ++
newText`.  In fact `combine_description` truncates strictly *before* the
watermark (`old_description[:index]` with `index` the start of the
watermark), so the watermark itself is dropped: on this concrete input
the result is `"Human note. new AI text"`, not
`"Human note. " ++ AI_WARNING ++ "new AI text"`. -/
theorem combine_append_watermark_cex :
    combine_description ("Human note. " ++ AI_WARNING ++ "old AI text") "new AI text" "APPEND"
        = .ok ("Human note. " ++ "new AI text") ∧
    combine_description ("Human note. " ++ AI_WARNING ++ "old AI text") "new AI text" "APPEND"
        ≠ .ok ("Human note. " ++ AI_WARNING ++ "new AI text") := by
  constructor
  · decide
  · decide

/-- Claim C1, amended.  `APPEND` with a watermarked `oldText` truncates
`oldText` at the *start* of the first watermark occurrence and appends
`newText` after the human-authored prefix, so the result is
`humanPrefix ++ newText`: the human prefix is never lost, but the
watermark boundary itself is not re-inserted (in the pipeline the
generated `newText` already begins with the watermark).  The hypothesis
pins the first watermark occurrence to the human/AI boundary. -/
theorem combine_append_truncates_at_watermark (hp ai new : String)
    (hnew : new ≠ "")
    (hidx : pyIndex (hp ++ AI_WARNING ++ ai) AI_WARNING = some hp.length) :
    combine_description (hp ++ AI_WARNING ++ ai) new "APPEND" = .ok (hp ++ new) := by
  have hone : hp ++ AI_WARNING ++ ai ≠ "" := by
    intro h
    have hd := congrArg String.data h
    simp only [String.data_append] at hd
    have : AI_WARNING.data = [] := by
      cases List.append_eq_nil.mp (List.append_eq_nil.mp hd).1 with
      | intro _ h2 => exact h2
    exact absurd this (by decide)
  unfold combine_description
  rw [if_neg hnew]
  have happ : handlingLower "APPEND" = DH_APPEND := by decide
  rw [happ, if_pos rfl, if_pos hone, hidx]
  show Except.ok (strTake (hp ++ AI_WARNING ++ ai) hp.length ++ new) = _
  unfold strTake
  have hd : (hp ++ AI_WARNING ++ ai).data = hp.data ++ (AI_WARNING.data ++ ai.data) := by
    simp [String.data_append]
  rw [hd]
  have hlen : hp.length = hp.data.length := rfl
  rw [hlen, List.take_left]

/-- Witness for `combine_append_truncates_at_watermark` at the concrete
strings of the spec's own example. -/
theorem combine_append_truncates_at_watermark_witness :
    ("new AI text" : String) ≠ "" ∧
    pyIndex ("Human note. " ++ AI_WARNING ++ "old AI text") AI_WARNING
      = some ("Human note. " : String).length ∧
    combine_description ("Human note. " ++ AI_WARNING ++ "old AI text") "new AI text" "APPEND"
      = .ok ("Human note. " ++ "new AI text") :=
  ⟨by decide, by decide,
    combine_append_truncates_at_watermark "Human note. " "old AI text" "new AI text"
      (by decide) (by decide)⟩

/-- Claim C4, counterexample.  The claim states that an unrecognized
merge policy makes `combine` return `oldText` *and* signal a
ConfigurationError-class failure.  The source's final `else` branch only
logs at debug level and returns `old_description`; no error is raised or
reported: on the concrete input `("a", "b", "bogus")` the call evaluates
to the plain successful value `.ok "a"`, not an `.error`. -/
theorem combine_unknown_policy_cex :
    combine_description "a" "b" "bogus" = .ok "a" ∧
    ∀ e : PyErr, combine_description "a" "b" "bogus" ≠ .error e := by
  constructor
  · decide
  · intro e h
    rw [show combine_description "a" "b" "bogus" = .ok "a" from by decide] at h
    exact Except.noConfusion h

/-- Claim C4, amended.  For every policy string whose lower-casing is
none of `append`/`prepend`/`replace`, `combine_description` returns
`oldText` unchanged as an ordinary successful result, silently: no
ConfigurationError-class failure is raised or reported. -/
theorem combine_unknown_policy_silent (old new p : String)
    (h1 : pyLower p ≠ DH_APPEND) (h2 : pyLower p ≠ DH_PREPEND) (h3 : pyLower p ≠ DH_REPLACE) :
    combine_description old new p = .ok old := by
  have hl1 : handlingLower p ≠ DH_APPEND := by
    unfold handlingLower
    split
    · decide
    · exact h1
  have hl2 : handlingLower p ≠ DH_PREPEND := by
    unfold handlingLower
    split
    · decide
    · exact h2
  have hl3 : handlingLower p ≠ DH_REPLACE := by
    unfold handlingLower
    split
    · decide
    · exact h3
  unfold combine_description
  rw [if_neg hl1, if_neg hl2, if_neg hl3]
  split <;> rfl

/-- Witness for `combine_unknown_policy_silent`. -/
theorem combine_unknown_policy_silent_witness :
    pyLower "bogus" ≠ DH_APPEND ∧ pyLower "bogus" ≠ DH_PREPEND ∧ pyLower "bogus" ≠ DH_REPLACE ∧
    combine_description "x" "y" "bogus" = .ok "x" :=
  ⟨by decide, by decide, by decide,
    combine_unknown_policy_silent "x" "y" "bogus" (by decide) (by decide) (by decide)⟩

/-- Claim C10, confirmed.  The merge engine is invariant under the letter
case of the policy argument: the source lower-cases
`description_handling` before comparing, and lower-casing is idempotent,
so `combine(old, new, p)` equals `combine(old, new, lower(p))` for all
strings. -/
theorem combine_policy_case_insensitive (old new p : String) :
    combine_description old new p = combine_description old new (pyLower p) := by
  unfold combine_description
  rw [handlingLower_pyLower]

/-! ### Generation Orchestrator (`utils.py`, `MetadataUtils.llm_inference`)

The Vertex AI call of attempt `k` is abstracted as `service k`; everything
inside the `try` (client init, model construction, `generate_content`)
either produces the response text or raises, which is what
`Except String String` records.  The loop `for attempt in range(retries +
1)` with the terminal `if attempt == retries: raise` is embedded with the
remaining-iterations count as fuel (`fuel = retries - attempt`).  Along
with the result we return the list of attempt indices actually issued and
the list of `time.sleep` durations `base_delay * 2 ** attempt` performed
between consecutive attempts. -/

/-- One iteration of the retry loop of `llm_inference`:
given the current `attempt` index and the remaining retries (`fuel`),
returns `(result, attempts made, sleep durations)`. -/
def llm_go (service : Nat → Except String String) (base attempt fuel : Nat) :
    Except String String × List Nat × List Nat :=
  match service attempt with
  | .ok t => (.ok t, [attempt], [])
  | .error e =>
    match fuel with
    | 0 => (.error e, [attempt], [])
    | fuel' + 1 =>
      let r := llm_go service base (attempt + 1) fuel'
      (r.1, attempt :: r.2.1, base * 2 ^ attempt :: r.2.2)

/-- Embedding of `MetadataUtils.llm_inference`: `retries = 3`,
`base_delay = 1`, starting at attempt `0`. -/
def llm_inference (service : Nat → Except String String) :
    Except String String × List Nat × List Nat :=
  llm_go service 1 0 3

/-- Claim C8, confirmed.  For every sequence of generative-service
outcomes there is an `n ≤ 3` such that the orchestrator issues exactly
the attempts `0, …, n` (hence at most 4 invocations), sleeps
`base_delay * 2 ^ attempt` after each failed non-final attempt (the delay
doubling each time), every attempt before `n` failed, the overall result
is exactly the outcome of attempt `n`, and the loop stopped either
because attempt `n` succeeded (first success returned) or because the
retry bound was exhausted (`n = 3`, the final failure re-raised). -/
theorem llm_inference_retry_policy (service : Nat → Except String String) :
    ∃ n : Nat, n ≤ 3 ∧
      (llm_inference service).2.1 = List.range (n + 1) ∧
      (llm_inference service).2.1.length ≤ 4 ∧
      (llm_inference service).2.2 = (List.range n).map (fun i => 1 * 2 ^ i) ∧
      (∀ j < n, ∃ e, service j = .error e) ∧
      (llm_inference service).1 = service n ∧
      ((∃ t, service n = .ok t) ∨ n = 3) := by
  cases h0 : service 0 with
  | ok t0 =>
    have hrun : llm_inference service = (.ok t0, [0], []) := by
      simp [llm_inference, llm_go, h0]
    refine ⟨0, by omega, ?_, ?_, ?_, ?_, ?_, ?_⟩
    · rw [hrun]; rfl
    · rw [hrun]; simp only [List.length_cons, List.length_nil]; omega
    · rw [hrun]; rfl
    · intro j hj; omega
    · rw [hrun, h0]
    · exact Or.inl ⟨t0, h0⟩
  | error e0 =>
    cases h1 : service 1 with
    | ok t1 =>
      have hrun : llm_inference service = (.ok t1, [0, 1], [1 * 2 ^ 0]) := by
        simp [llm_inference, llm_go, h0, h1]
      refine ⟨1, by omega, ?_, ?_, ?_, ?_, ?_, ?_⟩
      · rw [hrun]; rfl
      · rw [hrun]; simp only [List.length_cons, List.length_nil]; omega
      · rw [hrun]; rfl
      · intro j hj
        interval_cases j
        exact ⟨e0, h0⟩
      · rw [hrun, h1]
      · exact Or.inl ⟨t1, h1⟩
    | error e1 =>
      cases h2 : service 2 with
      | ok t2 =>
        have hrun : llm_inference service = (.ok t2, [0, 1, 2], [1 * 2 ^ 0, 1 * 2 ^ 1]) := by
          simp [llm_inference, llm_go, h0, h1, h2]
        refine ⟨2, by omega, ?_, ?_, ?_, ?_, ?_, ?_⟩
        · rw [hrun]; rfl
        · rw [hrun]; simp only [List.length_cons, List.length_nil]; omega
        · rw [hrun]; rfl
        · intro j hj
          interval_cases j
          · exact ⟨e0, h0⟩
          · exact ⟨e1, h1⟩
        · rw [hrun, h2]
        · exact Or.inl ⟨t2, h2⟩
      | error e2 =>
        cases h3 : service 3 with
        | ok t3 =>
          have hrun : llm_inference service
              = (.ok t3, [0, 1, 2, 3], [1 * 2 ^ 0, 1 * 2 ^ 1, 1 * 2 ^ 2]) := by
            simp [llm_inference, llm_go, h0, h1, h2, h3]
          refine ⟨3, by omega, ?_, ?_, ?_, ?_, ?_, ?_⟩
          · rw [hrun]; rfl
          · rw [hrun]; simp only [List.length_cons, List.length_nil]; omega
          · rw [hrun]; rfl
          · intro j hj
            interval_cases j
            · exact ⟨e0, h0⟩
            · exact ⟨e1, h1⟩
            · exact ⟨e2, h2⟩
          · rw [hrun, h3]
          · exact Or.inl ⟨t3, h3⟩
        | error e3 =>
          have hrun : llm_inference service
              = (.error e3, [0, 1, 2, 3], [1 * 2 ^ 0, 1 * 2 ^ 1, 1 * 2 ^ 2]) := by
            simp [llm_inference, llm_go, h0, h1, h2, h3]
          refine ⟨3, by omega, ?_, ?_, ?_, ?_, ?_, ?_⟩
          · rw [hrun]; rfl
          · rw [hrun]; simp only [List.length_cons, List.length_nil]; omega
          · rw [hrun]; rfl
          · intro j hj
            interval_cases j
            · exact ⟨e0, h0⟩
            · exact ⟨e1, h1⟩
            · exact ⟨e2, h2⟩
          · rw [hrun, h3]
          · exact Or.inr rfl

/-! ### Client options (`client_options.py`, `ClientOptions.__init__`)

One field per constructor parameter, with the constructor's default
values.  The field the source calls `_description_prefix` is named
`description_prefix_text` here. -/

structure ClientOptions where
  use_lineage_tables : Bool := false
  use_lineage_processes : Bool := false
  use_profile : Bool := false
  use_data_quality : Bool := false
  use_ext_documents : Bool := false
  persist_to_dataplex_catalog : Bool := true
  stage_for_review : Bool := false
  add_ai_warning : Bool := true
  use_human_comments : Bool := false
  regenerate : Bool := false
  top_values_in_description : Bool := true
  description_handling : String := DH_APPEND
  description_prefix_text : String := AI_WARNING
  deriving DecidableEq, Repr

/-- Embedding of the mutation that
`TableOperations.regenerate_dataset_tables_descriptions` performs on the
shared client-options object before delegating to
`generate_dataset_tables_descriptions`: it assigns
`_use_human_comments = True` and `_regenerate = True`.  No code in the
pipeline ever resets either flag, so this is the state of the options
object from that point on. -/
def regenerate_tables_option_mutation (o : ClientOptions) : ClientOptions :=
  { o with use_human_comments := true, regenerate := true }

/-- A caller-constructed options object with all constructor defaults
(`use_human_comments = false`, `regenerate = false`). -/
def callerOptions : ClientOptions := {}

/-- Claim C7, counterexample.  The claim states that no field of the
options object other than `regenerate` is ever mutated by the core, and
that `regenerate` is restored after the batch.  The regeneration batch
entry point also mutates `use_human_comments`: starting from the
constructor defaults, after the entry point runs the shared object's
`use_human_comments` is `true` while the caller supplied `false` — a
second field was mutated (and nothing in the source restores either
flag afterwards). -/
theorem regenerate_mutates_human_comments_cex :
    callerOptions.use_human_comments = false ∧
    (regenerate_tables_option_mutation callerOptions).use_human_comments = true ∧
    (regenerate_tables_option_mutation callerOptions).regenerate = true := by
  decide

/-- Claim C7, amended.  The regeneration batch entry point sets exactly
the two fields `use_human_comments` and `regenerate` to `true` on the
shared options object (and the source contains no code restoring them
after the batch); every other field keeps its caller-supplied value. -/
theorem regenerate_option_mutation_frame (o : ClientOptions) :
    (regenerate_tables_option_mutation o).use_human_comments = true ∧
    (regenerate_tables_option_mutation o).regenerate = true ∧
    (regenerate_tables_option_mutation o).use_lineage_tables = o.use_lineage_tables ∧
    (regenerate_tables_option_mutation o).use_lineage_processes = o.use_lineage_processes ∧
    (regenerate_tables_option_mutation o).use_profile = o.use_profile ∧
    (regenerate_tables_option_mutation o).use_data_quality = o.use_data_quality ∧
    (regenerate_tables_option_mutation o).use_ext_documents = o.use_ext_documents ∧
    (regenerate_tables_option_mutation o).persist_to_dataplex_catalog
      = o.persist_to_dataplex_catalog ∧
    (regenerate_tables_option_mutation o).stage_for_review = o.stage_for_review ∧
    (regenerate_tables_option_mutation o).add_ai_warning = o.add_ai_warning ∧
    (regenerate_tables_option_mutation o).top_values_in_description
      = o.top_values_in_description ∧
    (regenerate_tables_option_mutation o).description_handling = o.description_handling ∧
    (regenerate_tables_option_mutation o).description_prefix_text
      = o.description_prefix_text :=
  ⟨rfl, rfl, rfl, rfl, rfl, rfl, rfl, rfl, rfl, rfl, rfl, rfl, rfl⟩

/-! ### Prompt Assembler (`prompt_manager.py`)

The prompt is a concatenation of fixed text blocks from
`constants["PROMPTS"]` (whose literal texts are not in the source tree);
each block is modelled as an opaque marker, a prompt as the list of
markers in concatenation order. -/

/-- One fixed text block of `constants["PROMPTS"]`. -/
inductive PromptPart where
  | systemPreamble
  | tableBase
  | columnBaseWithExamples
  | columnBase
  | profileSection
  | qualitySection
  | lineageTablesSection
  | lineageProcessesSection
  | documentSection
  | tableHumanCommentsSection
  | columnHumanCommentsSection
  | generationBase
  | generationLineage
  | outputFormat
  deriving DecidableEq, Repr

/-- Embedding of `PromptManager._get_prompt_table`: the blocks
concatenated into the table prompt, in source order. -/
def get_prompt_table (o : ClientOptions) : List PromptPart :=
  [PromptPart.systemPreamble, PromptPart.tableBase]
    ++ (if o.use_profile then [PromptPart.profileSection] else [])
    ++ (if o.use_data_quality then [PromptPart.qualitySection] else [])
    ++ (if o.use_lineage_tables then [PromptPart.lineageTablesSection] else [])
    ++ (if o.use_lineage_processes then [PromptPart.lineageProcessesSection] else [])
    ++ (if o.use_ext_documents then [PromptPart.documentSection] else [])
    ++ (if o.use_human_comments then [PromptPart.tableHumanCommentsSection] else [])
    ++ [PromptPart.generationBase]
    ++ (if o.use_lineage_tables || o.use_lineage_processes
        then [PromptPart.generationLineage] else [])
    ++ [PromptPart.outputFormat]

/-- Embedding of `PromptManager._get_prompt_columns`: the blocks
concatenated into the column prompt, in source order.  Note that the
source has no `use_ext_documents` branch here. -/
def get_prompt_columns (o : ClientOptions) : List PromptPart :=
  [PromptPart.systemPreamble]
    ++ (if o.top_values_in_description
        then [PromptPart.columnBaseWithExamples] else [PromptPart.columnBase])
    ++ (if o.use_profile then [PromptPart.profileSection] else [])
    ++ (if o.use_data_quality then [PromptPart.qualitySection] else [])
    ++ (if o.use_lineage_tables then [PromptPart.lineageTablesSection] else [])
    ++ (if o.use_lineage_processes then [PromptPart.lineageProcessesSection] else [])
    ++ (if o.use_human_comments then [PromptPart.columnHumanCommentsSection] else [])
    ++ [PromptPart.outputFormat]

/-- The optional context sections named by the claim (with the
human-comments block in its table and column variants). -/
def isOptionalSection (p : PromptPart) : Bool :=
  match p with
  | PromptPart.profileSection | PromptPart.qualitySection
  | PromptPart.lineageTablesSection | PromptPart.lineageProcessesSection
  | PromptPart.documentSection | PromptPart.tableHumanCommentsSection
  | PromptPart.columnHumanCommentsSection => true
  | _ => false

theorem mem_ite_singleton (b : Bool) (x a : PromptPart) :
    (a ∈ if b then [x] else []) ↔ (b = true ∧ a = x) := by
  cases b <;> simp

theorem filter_ite_singleton (f : PromptPart → Bool) (b : Bool) (x : PromptPart) :
    List.filter f (if b then [x] else []) = if b then List.filter f [x] else [] := by
  cases b <;> rfl

theorem mem_ite_pair (b : Bool) (x y a : PromptPart) :
    (a ∈ if b then [x] else [y]) ↔ ((b = true ∧ a = x) ∨ (b = false ∧ a = y)) := by
  cases b <;> simp

theorem filter_ite_pair (f : PromptPart → Bool) (b : Bool) (x y : PromptPart) :
    List.filter f (if b then [x] else [y])
      = if b then List.filter f [x] else List.filter f [y] := by
  cases b <;> rfl

/-- An options object with every context flag enabled. -/
def allContextOptions : ClientOptions :=
  { use_lineage_tables := true, use_lineage_processes := true, use_profile := true,
    use_data_quality := true, use_ext_documents := true, use_human_comments := true }

/-- Claim C9, counterexample.  The claim states that for each target type
(table *and* column) the prompt contains the external-document section
iff `useExtDocuments` is set.  `_get_prompt_columns` has no
external-document branch at all: with every flag enabled (in particular
`use_ext_documents = true`) the column prompt still contains no
document section. -/
theorem column_prompt_no_document_cex :
    allContextOptions.use_ext_documents = true ∧
    PromptPart.documentSection ∉ get_prompt_columns allContextOptions := by
  decide

/-- Claim C9, amended.  For the *table* prompt each optional section is
present iff its flag is set (profile, quality, lineage-tables,
lineage-processes, external-document, human-comments) and the included
optional sections appear in exactly that fixed order.  For the *column*
prompt the same holds for the five sections it supports, in the same
relative order, but there is no external-document section regardless of
`use_ext_documents`. -/
theorem prompt_sections_gated_and_ordered (o : ClientOptions) :
    (PromptPart.profileSection ∈ get_prompt_table o ↔ o.use_profile = true) ∧
    (PromptPart.qualitySection ∈ get_prompt_table o ↔ o.use_data_quality = true) ∧
    (PromptPart.lineageTablesSection ∈ get_prompt_table o ↔ o.use_lineage_tables = true) ∧
    (PromptPart.lineageProcessesSection ∈ get_prompt_table o
      ↔ o.use_lineage_processes = true) ∧
    (PromptPart.documentSection ∈ get_prompt_table o ↔ o.use_ext_documents = true) ∧
    (PromptPart.tableHumanCommentsSection ∈ get_prompt_table o
      ↔ o.use_human_comments = true) ∧
    ((get_prompt_table o).filter isOptionalSection =
      (if o.use_profile then [PromptPart.profileSection] else [])
        ++ (if o.use_data_quality then [PromptPart.qualitySection] else [])
        ++ (if o.use_lineage_tables then [PromptPart.lineageTablesSection] else [])
        ++ (if o.use_lineage_processes then [PromptPart.lineageProcessesSection] else [])
        ++ (if o.use_ext_documents then [PromptPart.documentSection] else [])
        ++ (if o.use_human_comments then [PromptPart.tableHumanCommentsSection] else [])) ∧
    (PromptPart.profileSection ∈ get_prompt_columns o ↔ o.use_profile = true) ∧
    (PromptPart.qualitySection ∈ get_prompt_columns o ↔ o.use_data_quality = true) ∧
    (PromptPart.lineageTablesSection ∈ get_prompt_columns o
      ↔ o.use_lineage_tables = true) ∧
    (PromptPart.lineageProcessesSection ∈ get_prompt_columns o
      ↔ o.use_lineage_processes = true) ∧
    (PromptPart.columnHumanCommentsSection ∈ get_prompt_columns o
      ↔ o.use_human_comments = true) ∧
    PromptPart.documentSection ∉ get_prompt_columns o ∧
    ((get_prompt_columns o).filter isOptionalSection =
      (if o.use_profile then [PromptPart.profileSection] else [])
        ++ (if o.use_data_quality then [PromptPart.qualitySection] else [])
        ++ (if o.use_lineage_tables then [PromptPart.lineageTablesSection] else [])
        ++ (if o.use_lineage_processes then [PromptPart.lineageProcessesSection] else [])
        ++ (if o.use_human_comments then [PromptPart.columnHumanCommentsSection] else [])) := by
  simp only [get_prompt_table, get_prompt_columns, List.mem_append, mem_ite_singleton,
    mem_ite_pair, List.mem_cons, List.not_mem_nil, List.filter_append, filter_ite_singleton,
    filter_ite_pair]
  simp [isOptionalSection, List.filter]

/-! ### Draft/Review state machine (`dataplex_operations.py`, `bigquery_operations.py`)

The review aspect attached to a target is the dict the source stores
under the `ASPECT_TEMPLATE` aspect type; its fields are modelled as a
record (`contents = none` models the `contents` key being absent).  The
success of the two external writes (`update_entry` on the catalog,
`update_table` on BigQuery) is modelled by the `Bool` flags `dpOk` and
`bqOk`; a failed write leaves the store unchanged. -/

/-- The review-aspect payload of one target. -/
structure AspectData where
  contents : Option String
  isAccepted : Bool
  whenAccepted : Option String
  toBeRegenerated : Bool
  humanComments : List String
  negativeExamples : List String
  deriving DecidableEq, Repr

/-- The stores touched by the table accept operation: the target's review
aspect, the catalog `overview` aspect content, and the BigQuery table
description (`table.description or ""` makes the absent case `""`). -/
structure TableEntryState where
  aspect : Option AspectData
  overview : Option String
  bqDescription : String
  deriving DecidableEq, Repr

/-- The stores touched by the column accept operation: the column's
review aspect and the BigQuery column description. -/
structure ColumnEntryState where
  aspect : Option AspectData
  bqColumnDescription : String
  deriving DecidableEq, Repr

/-- Embedding of `DataplexOperations.update_table_dataplex_description`:
reads the current `overview` aspect; when present, merges the new
description against it with `combine_description` under the configured
policy, else writes the new description as-is; returns `False` without
writing when the catalog `update_entry` fails (`dpOk = false`). -/
def update_table_dataplex_description (handling : String) (dpOk : Bool) (description : String)
    (s : TableEntryState) : Bool × TableEntryState :=
  let content :=
    match s.overview with
    | some old => combineD old description handling
    | none => description
  if dpOk then (true, { s with overview := some content })
  else (false, s)

/-- Embedding of `BigQueryOperations.update_table_description`: merges
the new description against the existing table description with
`combine_description` and writes it back (the Python function either
returns `True` or re-raises; the raising case is handled at its call
site). -/
def update_table_description (handling : String) (description : String)
    (s : TableEntryState) : TableEntryState :=
  { s with bqDescription := combineD s.bqDescription description handling }

/-- Embedding of `DataplexOperations.accept_table_draft_description`.
The draft is the `contents` field of the review aspect; Python's
`if overview:` treats a missing key and an empty string alike.  The
Dataplex overview is written first, then the BigQuery description; a
BigQuery failure raises and is caught by the function's outer
`try/except`, which returns `False`.  The whole body is inside that
`try/except`, so no exception escapes: every path is `.ok`.  Note that
no path writes the review aspect itself. -/
def accept_table_draft_description (handling : String) (dpOk bqOk : Bool)
    (s : TableEntryState) : Except PyErr (Bool × TableEntryState) :=
  match s.aspect.bind (fun a => a.contents) with
  | some overview =>
    if overview ≠ "" then
      let r := update_table_dataplex_description handling dpOk overview s
      if bqOk then
        let s2 := update_table_description handling overview r.2
        if r.1 then .ok (true, s2) else .ok (false, s2)
      else .ok (false, r.2)
    else .ok (false, s)
  | none => .ok (false, s)

/-- Embedding of `DataplexOperations.accept_column_draft_description`.
When the column's review aspect exists, its data is updated with
`is-accepted = True`, `when-accepted = now`, `to-be-regenerated = False`
(all other keys kept); reading a missing `contents` key raises
`KeyError`, caught by the outer `try/except` which returns `False`.  The
BigQuery column description is updated first (merging against the
existing description); if that raises, the outer `try/except` returns
`False` before any aspect write; if the subsequent catalog `update_entry`
fails, the function returns `False` with the BigQuery write kept. -/
def accept_column_draft_description (handling now : String) (bqOk dpOk : Bool)
    (s : ColumnEntryState) : Except PyErr (Bool × ColumnEntryState) :=
  match s.aspect with
  | none => .ok (false, s)
  | some a =>
    match a.contents with
    | none => .ok (false, s)
    | some draft =>
      let newA : AspectData :=
        { a with isAccepted := true, whenAccepted := some now, toBeRegenerated := false }
      if bqOk then
        let s1 : ColumnEntryState :=
          { s with bqColumnDescription := combineD s.bqColumnDescription draft handling }
        if dpOk then .ok (true, { s1 with aspect := some newA })
        else .ok (false, s1)
      else .ok (false, s)

/-- A staged table entry: a non-empty draft, not yet accepted, with one
human comment, no prior catalog overview and an empty BigQuery
description. -/
def stagedTableAspect : AspectData :=
  { contents := some "draft text"
    isAccepted := false
    whenAccepted := none
    toBeRegenerated := false
    humanComments := ["looks wrong"]
    negativeExamples := [] }

def stagedTable : TableEntryState :=
  { aspect := some stagedTableAspect
    overview := none
    bqDescription := "" }

/-- Claim C2, counterexample.  The claim states that when accept
succeeds in writing the draft to both stores it marks the record
`isAccepted = true` / `whenAccepted = now`, for both `acceptTable` and
`acceptColumn`.  For the table operation this is false: on a staged
table with both external writes succeeding, the call returns success and
writes both descriptions, yet the review aspect is left byte-identical —
`is-accepted` is still `false` and no `when-accepted` is set (only the
HTTP layer, out of the cited core, ever sets them for tables). -/
theorem accept_table_not_marked_cex :
    accept_table_draft_description DH_APPEND true true stagedTable
      = .ok (true, { stagedTable with
          overview := some "draft text"
          bqDescription := "draft text" }) ∧
    (accept_table_draft_description DH_APPEND true true stagedTable).map
        (fun r => r.2.aspect) = .ok stagedTable.aspect ∧
    stagedTable.aspect.map (fun a => a.isAccepted) = some false := by
  refine ⟨by decide, by decide, by decide⟩

/-- Claim C2, amended.  Only `acceptColumn` marks acceptance metadata:
with both stores succeeding it returns success, writes the draft
(merged) to the BigQuery column description, sets `isAccepted = true`,
`whenAccepted = now` and clears `toBeRegenerated`, preserving the
existing comments and negative examples; `acceptTable` performs the two
description writes but never touches the record's acceptance metadata. -/
theorem accept_column_marks_acceptance (handling now : String)
    (sT : TableEntryState) (sC : ColumnEntryState) (a : AspectData) (d : String)
    (hA : sC.aspect = some a) (hC : a.contents = some d) :
    (accept_column_draft_description handling now true true sC
      = .ok (true,
        { aspect := some { a with
            isAccepted := true
            whenAccepted := some now
            toBeRegenerated := false }
          bqColumnDescription := combineD sC.bqColumnDescription d handling })) ∧
    (match (accept_column_draft_description handling now true true sC).map
        (fun r => r.2.aspect) with
      | .ok (some a') => a'.humanComments = a.humanComments
          ∧ a'.negativeExamples = a.negativeExamples
      | _ => False) ∧
    ((accept_table_draft_description handling true true sT).map (fun r => r.2.aspect)
      = .ok sT.aspect) := by
  refine ⟨?_, ?_, ?_⟩
  · unfold accept_column_draft_description
    rw [hA]
    simp only [hC]
    rfl
  · unfold accept_column_draft_description
    rw [hA]
    simp only [hC]
    exact ⟨rfl, rfl⟩
  · unfold accept_table_draft_description
    cases hd : sT.aspect.bind (fun a => a.contents) with
    | none => rfl
    | some ov =>
      by_cases hov : ov = ""
      · subst hov
        simp [Except.map]
      · simp only [ne_eq, hov, not_false_eq_true, if_true, if_pos]
        unfold update_table_dataplex_description update_table_description
        simp [Except.map]

/-- Witness for `accept_column_marks_acceptance` on a concrete staged
column entry. -/
def stagedColumnAspect : AspectData :=
  { contents := some "col draft"
    isAccepted := false
    whenAccepted := none
    toBeRegenerated := true
    humanComments := ["c1"]
    negativeExamples := ["n1"] }

def stagedColumn : ColumnEntryState :=
  { aspect := some stagedColumnAspect
    bqColumnDescription := "" }

theorem accept_column_marks_acceptance_witness :
    accept_column_draft_description DH_APPEND "2026-01-01T00:00:00Z" true true stagedColumn
      = .ok (true,
        { aspect := some { stagedColumnAspect with
            isAccepted := true
            whenAccepted := some "2026-01-01T00:00:00Z"
            toBeRegenerated := false }
          bqColumnDescription :=
            combineD stagedColumn.bqColumnDescription "col draft" DH_APPEND }) :=
  (accept_column_marks_acceptance DH_APPEND "2026-01-01T00:00:00Z" stagedTable
    stagedColumn stagedColumnAspect "col draft" rfl rfl).1

/-- A table entry whose review aspect exists but has no `contents` key. -/
def tableNoDraft : TableEntryState :=
  { aspect := some { contents := none
                     isAccepted := false
                     whenAccepted := none
                     toBeRegenerated := false
                     humanComments := []
                     negativeExamples := [] }
    overview := some "prior overview"
    bqDescription := "prior bq" }

/-- Claim C6, counterexample.  The claim states that `acceptTable` on a
target with no draft fails with a NotFound-class *error*.  The source
merely logs a warning and `return False`: on a concrete draft-less entry
the call evaluates to the ordinary value `.ok (false, _)` — no exception
of any class is raised — though it indeed performs no writes. -/
theorem accept_table_no_draft_cex :
    accept_table_draft_description DH_APPEND true true tableNoDraft
      = .ok (false, tableNoDraft) ∧
    ∀ e : PyErr, accept_table_draft_description DH_APPEND true true tableNoDraft
      ≠ .error e := by
  refine ⟨by decide, ?_⟩
  intro e h
  rw [show accept_table_draft_description DH_APPEND true true tableNoDraft
      = .ok (false, tableNoDraft) from by decide] at h
  exact Except.noConfusion h

/-- Claim C6, amended.  `acceptTable` on a target whose record holds no
draft (no review aspect, no `contents` key, or an empty draft string)
performs no writes — the review aspect, the catalog overview and the
BigQuery description are all left unchanged — and signals failure by
returning `False`, not by raising a NotFound-class error. -/
theorem accept_table_no_draft_no_writes (handling : String) (dpOk bqOk : Bool)
    (s : TableEntryState)
    (h : s.aspect.bind (fun a => a.contents) = none
       ∨ s.aspect.bind (fun a => a.contents) = some "") :
    accept_table_draft_description handling dpOk bqOk s = .ok (false, s) := by
  unfold accept_table_draft_description
  cases h with
  | inl hn => rw [hn]
  | inr he => rw [he]; simp

/-- Witness for `accept_table_no_draft_no_writes`. -/
theorem accept_table_no_draft_no_writes_witness :
    (tableNoDraft.aspect.bind (fun a => a.contents) = none
      ∨ tableNoDraft.aspect.bind (fun a => a.contents) = some "") ∧
    accept_table_draft_description DH_PREPEND false true tableNoDraft
      = .ok (false, tableNoDraft) :=
  ⟨Or.inl (by decide),
    accept_table_no_draft_no_writes DH_PREPEND false true tableNoDraft (Or.inl (by decide))⟩

/-! ### Batch Strategy Scheduler (`table_operations.py`,
`TableOperations.generate_dataset_tables_descriptions`)

The run is summarised as the Python outcome together with the ordered
trace of external-collaborator calls and per-table
`generate_table_description` dispatches. -/

/-- Modelled from the spec: `constants["GENERATION_STRATEGY"]`, missing
with `constants.toml` — the five strategy names of the spec, mapped to
distinct codes. -/
def GENERATION_STRATEGY : List (String × Nat) :=
  [("NAIVE", 1), ("RANDOM", 2), ("ALPHABETICAL", 3), ("DOCUMENTED", 4),
   ("DOCUMENTED_THEN_REST", 5)]

/-- The keys of `constants["GENERATION_STRATEGY"]` (Python `strategy not
in constants["GENERATION_STRATEGY"]` tests key membership). -/
def strategyKeys : List String := GENERATION_STRATEGY.map Prod.fst

/-- The values of `constants["GENERATION_STRATEGY"]`. -/
def strategyValues : List Nat := GENERATION_STRATEGY.map Prod.snd

/-- `constants["GENERATION_STRATEGY"][strategy]` (callers only use it
after checking key membership). -/
def strategyValue (strategy : String) : Nat :=
  (GENERATION_STRATEGY.lookup strategy).getD 0

/-- A dynamically-typed Python value as it occurs in the membership
tests of this function: either a table-name string or an
`(fqn, documentation uri)` tuple read from the CSV.  Python `in`
compares with `==`, and values of different shapes are unequal. -/
inductive PyVal where
  | str (s : String)
  | pair (a b : String)
  deriving DecidableEq, Repr

/-- An external-collaborator call made during the batch run. -/
inductive ExtCall where
  | listTables
  | searchEntries
  | readCsv
  deriving DecidableEq, Repr

/-- One step of the batch trace. -/
inductive BatchEvent where
  | ext (c : ExtCall)
  | genTable (fqn : String) (doc : Option String)
  deriving DecidableEq, Repr

/-- The external world the batch run reads:
`datasetTables` is what `_list_tables_in_dataset` returns (warehouse
listing order), `regenTables` what
`_list_tables_in_dataset_for_regeneration` returns, and `csvRows` the
`(fqn, uri)` rows parsed by `_get_tables_from_uri`. -/
structure BatchEnv where
  datasetTables : List String
  regenTables : List String
  csvRows : List (String × String)

/-- The `for table in tables_from_uri` loop of the `DOCUMENTED`
branch (non-regeneration): tests `table[0] not in tables` (string
against strings) and dispatches `generate_table_description(table[0],
table[1])`. -/
def documentedRowsLoop (dataset_fqn : String) (tables : List String) :
    List (String × String) → Except PyErr Unit × List BatchEvent
  | [] => (.ok (), [])
  | (t, d) :: rest =>
    if t ∈ tables then
      let r := documentedRowsLoop dataset_fqn tables rest
      (r.1, .genTable t (some d) :: r.2)
    else
      (.error (.valueError ("Table ('" ++ t ++ "', '" ++ d ++ "') not found in dataset "
        ++ dataset_fqn ++ ".")), [])

/-- The `for table in tables_from_uri` loop of the
`DOCUMENTED_THEN_REST` branch (non-regeneration).  Unlike the
`DOCUMENTED` branch this one tests `table not in tables` with `table`
the whole `(fqn, uri)` *tuple* against the list of table-name *strings*;
Python `in` compares the tuple with each string as unequal, which the
`PyVal` embedding reproduces. -/
def documentedThenRestRowsLoop (dataset_fqn : String) (tables : List String) :
    List (String × String) → Except PyErr Unit × List BatchEvent
  | [] => (.ok (), [])
  | (t, d) :: rest =>
    if (PyVal.pair t d) ∈ tables.map PyVal.str then
      let r := documentedThenRestRowsLoop dataset_fqn tables rest
      (r.1, .genTable t (some d) :: r.2)
    else
      (.error (.valueError ("Table ('" ++ t ++ "', '" ++ d ++ "') not found in dataset "
        ++ dataset_fqn ++ ".")), [])

/-- The closing `for table in tables` loop of `DOCUMENTED_THEN_REST`:
every dataset table not among the CSV's first elements is dispatched
with no document. -/
def restTablesLoop (csvFirsts tables : List String) : List BatchEvent :=
  (tables.filter (fun t => !(csvFirsts.contains t))).map
    (fun t => BatchEvent.genTable t none)

/-- The `for table in tables` regeneration sub-loop of both documented
branches.  Its first statement calls
`self._check_if_table_should_be_regenerated`, a method that does not
exist on `TableOperations` (the similarly-named helper lives on
`DataplexOperations`), so the first iteration raises `AttributeError`;
with no tables the loop body never runs. -/
def regenDocumentedLoop (tables : List String) : Except PyErr Unit × List BatchEvent :=
  match tables with
  | [] => (.ok (), [])
  | _ :: _ =>
    (.error (.attributeError
      "'TableOperations' object has no attribute '_check_if_table_should_be_regenerated'"),
     [])

/-- Embedding of `TableOperations._order_tables_to_strategy`; `shuffle`
stands for `random.shuffle`, `sorted` is Python's stable lexicographic
sort. -/
def order_tables_to_strategy (shuffle : List String → List String)
    (tables : List String) (strategy : Nat) : List String :=
  if strategy = strategyValue "NAIVE" then tables
  else if strategy = strategyValue "RANDOM" then shuffle tables
  else if strategy = strategyValue "ALPHABETICAL" then
    tables.mergeSort (fun a b => decide (a ≤ b))
  else tables

/-- Embedding of `TableOperations.generate_dataset_tables_descriptions`.
Returns the Python outcome (`.ok`, or the exception logged and re-raised
by the outer `except`) paired with the ordered trace of
external-collaborator calls and per-table dispatches.  The validation
block (strategy-key membership, strategy-value membership, and the
documentation-URI requirement checked *only* for `DOCUMENTED`) runs
before the table listing; the CSV is read after it. -/
def generate_dataset_tables_descriptions (env : BatchEnv)
    (shuffle : List String → List String) (regenerate : Bool)
    (dataset_fqn strategy : String) (documentation_csv_uri : Option String) :
    Except PyErr Unit × List BatchEvent :=
  if strategy ∉ strategyKeys then
    (.error (.valueError ("Invalid strategy: " ++ strategy ++ ".")), [])
  else if strategyValue strategy ∉ strategyValues then
    (.error (.valueError ("Invalid strategy: " ++ strategy ++ ".")), [])
  else if strategyValue strategy = strategyValue "DOCUMENTED" ∧ documentation_csv_uri = none
  then
    (.error (.valueError "A documentation URI is required for the DOCUMENTED strategy."), [])
  else
    let listEv : BatchEvent :=
      if regenerate then .ext .searchEntries else .ext .listTables
    let tables := if regenerate then env.regenTables else env.datasetTables
    if strategyValue strategy = strategyValue "DOCUMENTED" then
      match documentation_csv_uri with
      | none =>
        (.error (.attributeError "'NoneType' object has no attribute 'split'"), [listEv])
      | some _ =>
        if regenerate then
          let r := regenDocumentedLoop tables
          (r.1, listEv :: .ext .readCsv :: r.2)
        else
          let r := documentedRowsLoop dataset_fqn tables env.csvRows
          (r.1, listEv :: .ext .readCsv :: r.2)
    else if strategyValue strategy = strategyValue "DOCUMENTED_THEN_REST" then
      match documentation_csv_uri with
      | none =>
        (.error (.attributeError "'NoneType' object has no attribute 'split'"), [listEv])
      | some _ =>
        let csvFirsts := env.csvRows.map Prod.fst
        if regenerate then
          let r := regenDocumentedLoop tables
          match r.1 with
          | .error e => (.error e, listEv :: .ext .readCsv :: r.2)
          | .ok _ =>
            (.ok (), listEv :: .ext .readCsv :: (r.2 ++ restTablesLoop csvFirsts tables))
        else
          let r := documentedThenRestRowsLoop dataset_fqn tables env.csvRows
          match r.1 with
          | .error e => (.error e, listEv :: .ext .readCsv :: r.2)
          | .ok _ =>
            (.ok (), listEv :: .ext .readCsv :: (r.2 ++ restTablesLoop csvFirsts tables))
    else if strategyValue strategy = strategyValue "NAIVE"
        ∨ strategyValue strategy = strategyValue "RANDOM"
        ∨ strategyValue strategy = strategyValue "ALPHABETICAL" then
      (.ok (), listEv ::
        (order_tables_to_strategy shuffle tables (strategyValue strategy)).map
          (fun t => BatchEvent.genTable t none))
    else
      (.ok (), [listEv])

/-- A dataset with two tables whose documentation CSV lists the first of
them — exactly the situation claims C3 and C5 describe. -/
def batchEnvExample : BatchEnv :=
  { datasetTables := ["p.d.t1", "p.d.t2"]
    regenTables := []
    csvRows := [("p.d.t1", "gs://doc1")] }

/-- Claim C3: the code contradicts the spec.  With dataset tables
`{t1, t2}` and CSV `[(t1, doc1)]`, a non-regeneration
`DOCUMENTED_THEN_REST` run should process `t1` with `doc1` attached and
then `t2` with no document.  Instead the very first CSV row fails the
membership test `table not in tables` — the `(fqn, uri)` tuple is
compared against name strings, never equal — and the run raises
`ValueError` after the table listing and CSV read, dispatching no table
at all.  The parallel `DOCUMENTED` branch tests `table[0] not in
tables`, showing the intent. -/
theorem documented_then_rest_tuple_membership_bug :
    generate_dataset_tables_descriptions batchEnvExample id false "p.d"
        "DOCUMENTED_THEN_REST" (some "gs://bucket/doc.csv")
      = (.error (.valueError "Table ('p.d.t1', 'gs://doc1') not found in dataset p.d."),
         [.ext .listTables, .ext .readCsv]) := by
  decide

/-- Claim C5, counterexample.  The claim states that a documentation-
driven strategy with no CSV URI raises a ConfigurationError-class
failure before any external call.  The upfront URI check covers only
`DOCUMENTED`: running `DOCUMENTED_THEN_REST` with no URI first performs
the external table listing and only then fails — with `AttributeError`
(from `None.split` inside `_get_tables_from_uri`), not a
ValueError/ConfigurationError. -/
theorem documented_then_rest_missing_uri_cex :
    generate_dataset_tables_descriptions batchEnvExample id false "p.d"
        "DOCUMENTED_THEN_REST" none
      = (.error (.attributeError "'NoneType' object has no attribute 'split'"),
         [.ext .listTables]) := by
  decide

/-- Claim C5, amended.  An invalid strategy name, or the `DOCUMENTED`
strategy with no documentation CSV URI, raises `ValueError` before any
external collaborator call (empty trace); the missing-URI check does
*not* extend to `DOCUMENTED_THEN_REST`, which fails only after the
table listing. -/
theorem config_errors_before_external_calls (env : BatchEnv)
    (shuffle : List String → List String) (regenerate : Bool)
    (dataset_fqn strategy : String) (uri : Option String)
    (h : strategy ∉ strategyKeys ∨ (strategy = "DOCUMENTED" ∧ uri = none)) :
    ∃ msg, generate_dataset_tables_descriptions env shuffle regenerate dataset_fqn
        strategy uri
      = (.error (.valueError msg), []) := by
  cases h with
  | inl hk =>
    refine ⟨"Invalid strategy: " ++ strategy ++ ".", ?_⟩
    unfold generate_dataset_tables_descriptions
    rw [if_pos hk]
  | inr hd =>
    obtain ⟨hs, hu⟩ := hd
    subst hs
    subst hu
    refine ⟨"A documentation URI is required for the DOCUMENTED strategy.", ?_⟩
    unfold generate_dataset_tables_descriptions
    rw [if_neg (by decide : ¬("DOCUMENTED" ∉ strategyKeys))]
    rw [if_neg (by decide : ¬(strategyValue "DOCUMENTED" ∉ strategyValues))]
    rw [if_pos ⟨rfl, rfl⟩]

/-- Witness for `config_errors_before_external_calls` on the invalid
strategy name `"TYPO"`. -/
theorem config_errors_before_external_calls_witness :
    ("TYPO" ∉ strategyKeys ∨ ("TYPO" = "DOCUMENTED" ∧ some "gs://u" = none)) ∧
    ∃ msg, generate_dataset_tables_descriptions batchEnvExample id false "p.d"
        "TYPO" (some "gs://u")
      = (.error (.valueError msg), []) :=
  ⟨Or.inl (by decide),
    config_errors_before_external_calls batchEnvExample id false "p.d" "TYPO"
      (some "gs://u") (Or.inl (by decide))⟩

end DataplexUtils
